import Mathlib

/-!
Shallow embedding of the query translation, orchestration and
error-classification subsystem of the gocbcolumnar client
(`src/unnamed/part_000`, package `cbcolumnar`).

Go maps of type `map[string]interface{}` are embedded as association lists
with overwriting insertion (`Payload.set`); Go `interface{}` values are the
inductive `GoValue`.  Go's `time.Duration` is `Int` (nanoseconds), and
`time.Duration.String()` is ported as `durationString`.  A `context.Context`
is embedded by the only observation the code makes of it: the result of
`ctx.Deadline()`, recorded as the remaining time `time.Until(deadline)`
at the moment of the call.
-/

set_option maxRecDepth 8192

/-- Embedding of a Go `interface{}` value as stored in the wire payload. -/
inductive GoValue where
  | str (s : String)
  | bool (b : Bool)
  | int (n : Int)
  | list (xs : List GoValue)
  | other (tag : Nat)

/-- Embedding of the Go map `map[string]interface{}`: an association list in
which `set` overwrites the binding of an existing key in place. -/
def Payload := List (String × GoValue)

/-- The operation `p.set k v` models the Go map assignment `p[k] = v`. -/
def Payload.set : Payload → String → GoValue → Payload
  | [], k, v => [(k, v)]
  | (k', v') :: rest, k, v =>
    if k' = k then (k, v) :: rest else (k', v') :: Payload.set rest k v

/-- The operation `p.get? k` models the Go map read `p[k]` (with presence). -/
def Payload.get? : Payload → String → Option GoValue
  | [], _ => none
  | (k', v') :: rest, k => if k' = k then some v' else Payload.get? rest k

theorem Payload.get?_set_self (p : Payload) (k : String) (v : GoValue) :
    (p.set k v).get? k = some v := by
  induction p with
  | nil => simp [Payload.set, Payload.get?]
  | cons hd tl ih =>
    obtain ⟨k', v'⟩ := hd
    by_cases h : k' = k <;> simp [Payload.set, Payload.get?, h, ih]

theorem Payload.get?_set_ne (p : Payload) (k k' : String) (v : GoValue)
    (h : k' ≠ k) : (p.set k' v).get? k = p.get? k := by
  have h' : ¬k = k' := fun hh => h hh.symm
  induction p with
  | nil => simp [Payload.set, Payload.get?, h]
  | cons hd tl ih =>
    obtain ⟨k₀, v₀⟩ := hd
    by_cases h₀ : k₀ = k'
    · subst h₀
      simp [Payload.set, Payload.get?, h]
    · by_cases h₁ : k₀ = k <;> simp [Payload.set, Payload.get?, h₀, h₁, h', ih]

/-- Folding Go-map insertion of the entries of `l` over `p`; models the
`for k, v := range m { p[k] = v }` loops of `translateQueryOptions`. -/
def Payload.setAll (p : Payload) (l : List (String × GoValue)) : Payload :=
  l.foldl (fun acc kv => acc.set kv.1 kv.2) p

theorem Payload.get?_setAll_not_mem :
    ∀ (l : List (String × GoValue)) (p : Payload) (k : String),
      k ∉ l.map Prod.fst → (p.setAll l).get? k = p.get? k := by
  intro l
  induction l with
  | nil => intro p k _; rfl
  | cons hd tl ih =>
    intro p k h
    obtain ⟨k', v'⟩ := hd
    simp only [List.map_cons, List.mem_cons, not_or] at h
    calc (p.setAll ((k', v') :: tl)).get? k
        = ((p.set k' v').setAll tl).get? k := rfl
      _ = (p.set k' v').get? k := ih (p.set k' v') k h.2
      _ = p.get? k := Payload.get?_set_ne p k k' v' (fun hh => h.1 hh.symm)

theorem Payload.get?_setAll_mem :
    ∀ (l : List (String × GoValue)) (p : Payload) (k : String) (v : GoValue),
      (k, v) ∈ l → (l.map Prod.fst).Nodup → (p.setAll l).get? k = some v := by
  intro l
  induction l with
  | nil => intro p k v hmem _; cases hmem
  | cons hd tl ih =>
    intro p k v hmem hnodup
    obtain ⟨k', v'⟩ := hd
    simp only [List.map_cons, List.nodup_cons] at hnodup
    rcases List.mem_cons.1 hmem with heq | htl
    · obtain ⟨rfl, rfl⟩ := Prod.mk.inj heq
      calc (p.setAll ((k, v) :: tl)).get? k
          = ((p.set k v).setAll tl).get? k := rfl
        _ = (p.set k v).get? k := Payload.get?_setAll_not_mem tl _ k hnodup.1
        _ = some v := Payload.get?_set_self p k v
    · calc (p.setAll ((k', v') :: tl)).get? k
          = ((p.set k' v').setAll tl).get? k := rfl
        _ = some v := ih (p.set k' v') k v htl hnodup.2

/-! ### Go `time.Duration.String()`

Port of the formatting routine from Go's `time` package, which the source
invokes at `execOpts["timeout"] = (...).String()`.  `fmtFracGo v prec`
returns the fractional suffix (with leading dot, trailing zeros removed)
and `v / 10 ^ prec`; `fmtIntGo` prints a natural number in decimal. -/

def fmtFracGo : Nat → Nat → String × Nat :=
  fun v prec => go v prec "" false
where
  go : Nat → Nat → String → Bool → String × Nat
    | v, 0, acc, print => (if print then "." ++ acc else "", v)
    | v, prec + 1, acc, print =>
      let digit := v % 10
      let print' := print || decide (digit ≠ 0)
      let acc' :=
        if print' then String.singleton (Char.ofNat (48 + digit)) ++ acc else acc
      go (v / 10) prec acc' print'

/-- Go's `fmtInt`: decimal digits, `"0"` for zero (this is `Nat.repr`). -/
def fmtIntGo (v : Nat) : String := Nat.repr v

/-- One second / millisecond / microsecond in nanoseconds, as in Go `time`. -/
def nsSecond : Nat := 1000000000

def nsMillisecond : Nat := 1000000

def nsMicrosecond : Nat := 1000

/-- The body of Go's `Duration.format` on the magnitude `u` (nanoseconds). -/
def durationCore (u : Nat) : String :=
  if u < nsSecond then
    if u = 0 then "0s"
    else if u < nsMicrosecond then
      fmtIntGo (fmtFracGo u 0).2 ++ (fmtFracGo u 0).1 ++ "ns"
    else if u < nsMillisecond then
      fmtIntGo (fmtFracGo u 3).2 ++ (fmtFracGo u 3).1 ++ "µs"
    else
      fmtIntGo (fmtFracGo u 6).2 ++ (fmtFracGo u 6).1 ++ "ms"
  else
    if (fmtFracGo u 9).2 / 60 = 0 then
      fmtIntGo ((fmtFracGo u 9).2 % 60) ++ (fmtFracGo u 9).1 ++ "s"
    else if (fmtFracGo u 9).2 / 60 / 60 = 0 then
      fmtIntGo ((fmtFracGo u 9).2 / 60 % 60) ++ "m" ++
        (fmtIntGo ((fmtFracGo u 9).2 % 60) ++ (fmtFracGo u 9).1 ++ "s")
    else
      fmtIntGo ((fmtFracGo u 9).2 / 60 / 60) ++ "h" ++
        (fmtIntGo ((fmtFracGo u 9).2 / 60 % 60) ++ "m" ++
          (fmtIntGo ((fmtFracGo u 9).2 % 60) ++ (fmtFracGo u 9).1 ++ "s"))

/-- Go's `time.Duration.String()` on a signed nanosecond count. -/
def durationString (d : Int) : String :=
  if d < 0 then "-" ++ durationCore d.natAbs else durationCore d.natAbs

theorem length_append_pos_right (s t : String) (h : 0 < t.length) :
    0 < (s ++ t).length := by
  rw [String.length_append]
  omega

theorem durationCore_length_pos (u : Nat) : 0 < (durationCore u).length := by
  unfold durationCore
  repeat' split
  all_goals
    first
      | decide
      | (repeat' apply length_append_pos_right
         decide)

theorem durationString_length_pos (d : Int) : 0 < (durationString d).length := by
  unfold durationString
  split
  · exact length_append_pos_right _ _ (durationCore_length_pos _)
  · exact durationCore_length_pos _

theorem durationString_ne_empty (d : Int) : durationString d ≠ "" := by
  intro h
  have hp := durationString_length_pos d
  rw [h] at hp
  exact absurd hp (by decide)

/-! ### Query options and payload translation (`translateQueryOptions`) -/

/-- Modelled from the spec: the scan-consistency enum is declared outside
`src/`; only the two named constants and their distinctness from other
values matter to the translation switch. -/
abbrev QueryScanConsistency := Nat

def QueryScanConsistencyNotBounded : QueryScanConsistency := 1

def QueryScanConsistencyRequestPlus : QueryScanConsistency := 2

/-- The caller-supplied options structure (the `Unmarshaler` field is omitted:
it is only consulted after a successful dispatch and never affects the
payload).  Go maps for named/raw parameters are embedded as association
lists; a Go map has pairwise distinct keys and unspecified iteration order. -/
structure QueryOptions where
  PositionalParameters : Option (List GoValue) := none
  NamedParameters : Option (List (String × GoValue)) := none
  Raw : Option (List (String × GoValue)) := none
  ScanConsistency : Option QueryScanConsistency := none
  ReadOnly : Option Bool := none
  Priority : Option Bool := none

/-- The embedding of a `context.Context`: `remaining = some r` means
`ctx.Deadline()` reports a deadline with `time.Until(deadline) = r`
nanoseconds at the moment `translateQueryOptions` reads it. -/
structure Ctx where
  remaining : Option Int

structure invalidArgumentError where
  ArgumentName : String
  Reason : String
deriving DecidableEq

/-- The struct `gocbcore.ColumnarQueryOptions` restricted to the fields the core sets
to non-constant values (`User` is always `""`, `TraceContext` always nil). -/
structure ColumnarQueryOptions where
  Payload : Payload
  Priority : Option Int

structure gocbcoreQueryClientNamespace where
  Database : String
  Scope : String

structure gocbcoreQueryClient where
  defaultQueryTimeout : Int
  namespace_ : Option gocbcoreQueryClientNamespace

/-- The key normalization of the named-parameter loop:
`if !strings.HasPrefix(key, "$") { key = "$" + key }`. -/
def namedParamKey (key : String) : String :=
  if key.startsWith "$" then key else "$" ++ key

/-- The `opts.ScanConsistency` switch of `translateQueryOptions`, including
its early `return nil, invalidArgumentError{...}`. -/
def scanConsistencyStep (sc : Option QueryScanConsistency) (p : Payload) :
    Except invalidArgumentError Payload :=
  match sc with
  | none => .ok p
  | some v =>
    if v = QueryScanConsistencyNotBounded then
      .ok (p.set "scan_consistency" (.str "not_bounded"))
    else if v = QueryScanConsistencyRequestPlus then
      .ok (p.set "scan_consistency" (.str "request_plus"))
    else
      .error { ArgumentName := "ScanConsistency", Reason := "unknown value" }

/-- The method `(c *gocbcoreQueryClient) translateQueryOptions(ctx, statement, opts)`. -/
def translateQueryOptions (c : gocbcoreQueryClient) (ctx : Ctx)
    (statement : String) (opts : QueryOptions) :
    Except invalidArgumentError ColumnarQueryOptions :=
  let priority : Option Int :=
    match opts.Priority with
    | some true => some (-1)
    | _ => none
  let e1 : Payload :=
    match opts.PositionalParameters with
    | some ps => Payload.set [] "args" (.list ps)
    | none => []
  let e2 :=
    match opts.NamedParameters with
    | some nps => e1.setAll (nps.map (fun kv => (namedParamKey kv.1, kv.2)))
    | none => e1
  let e3 :=
    match opts.Raw with
    | some raw => e2.setAll raw
    | none => e2
  match scanConsistencyStep opts.ScanConsistency e3 with
  | .error e => .error e
  | .ok e4 =>
    let e5 :=
      match opts.ReadOnly with
      | some b => e4.set "readonly" (.bool b)
      | none => e4
    let e6 :=
      match ctx.remaining with
      | some r => e5.set "timeout" (.str (durationString (r + 5 * (nsSecond : Int))))
      | none => e5.set "timeout" (.str (durationString c.defaultQueryTimeout))
    let e7 := e6.set "statement" (.str statement)
    .ok { Payload := e7, Priority := priority }

/-! ### Error model and classifier (`translateGocbcoreError`) -/

/-- The inner cause wrapped by a `gocbcore.ColumnarError`, observed through
`Error()` (its message) and the `errors.Is` probes the classifier runs on
it.  Per the spec, the transport error unwraps to this inner cause, so
`errors.Is(err, target)` and `errors.Is(coreErr.InnerError, target)` agree. -/
structure InnerErr where
  message : String
  isTimeout : Bool
  isCanceled : Bool
  isDeadlineExceeded : Bool
  isAuthFailure : Bool
deriving DecidableEq

/-- A server-reported descriptor inside `gocbcore.ColumnarError.Errors`. -/
structure ErrorDesc where
  Code : Nat
  Message : String
  Retry : Bool
deriving DecidableEq

/-- The struct `gocbcore.ColumnarError`: `InnerError` is a nil-able Go interface value;
`ErrorString` records the `Error()` rendering of the whole error (used by
`errors.New(err.Error())` in the default branch). -/
structure CoreColumnarError where
  InnerError : Option InnerErr
  Statement : String
  Endpoint : String
  HTTPResponseCode : Int
  WasNotDispatched : Bool
  Errors : List ErrorDesc
  ErrorString : String
deriving DecidableEq

/-- An error value handed to the classifier: either one whose chain contains
a `*gocbcore.ColumnarError` (found by `errors.As`), or any other error. -/
inductive GoError where
  | core (e : CoreColumnarError)
  | other (msg : String)
deriving DecidableEq

/-- The repository's own descriptor copy (`columnarErrorDesc{Code, Message}`). -/
structure columnarErrorDesc where
  Code : Nat
  Message : String
deriving DecidableEq

/-- The cause tag attached to a classified error: the sentinel errors
`ErrInvalidCredential`/`ErrTimeout`, the context errors, a fresh
`errors.New` wrapping, or no cause set. -/
inductive ErrCause where
  | invalidCredential
  | timeout
  | canceled
  | deadlineExceeded
  | wrapped (msg : String)
  | unset
deriving DecidableEq

/-- Modelled from the spec: the classified-error value built by
`newColumnarError(statement, endpoint, code)` and its `withMessage` /
`withErrors` / `withCause` builders, which live outside `src/`.  Carries
statement and endpoint context, the HTTP-like status code, a display
message, the descriptor list, and exactly one cause tag. -/
structure columnarError where
  statement : String
  endpoint : String
  httpStatusCode : Int
  message : String
  errors : List columnarErrorDesc
  cause : ErrCause
deriving DecidableEq

/-- Modelled from the spec: the value built by `newQueryError(statement,
endpoint, httpCode, code, msg)` (outside `src/`): a QueryError whose
identity is the selected descriptor's code and message, carrying the full
descriptor list; `causeAnnotation` is the low-level transport annotation
written by `qErr.cause.cause = ...`. -/
structure queryError where
  statement : String
  endpoint : String
  httpStatusCode : Int
  code : Nat
  message : String
  errors : List columnarErrorDesc
  causeAnnotation : ErrCause
deriving DecidableEq

/-- The classifier's output: the unrecognized error returned unchanged, a
columnar error, or a query error. -/
inductive ClassifiedError where
  | passthrough (e : GoError)
  | columnar (e : columnarError)
  | query (e : queryError)
deriving DecidableEq

/-- The probe `errors.Is(err, gocbcore.ErrAuthenticationFailure)`: true when the inner
cause indicates authentication failure; a nil inner cause never matches. -/
def CoreColumnarError.innerIsAuth (e : CoreColumnarError) : Bool :=
  match e.InnerError with
  | some i => i.isAuthFailure
  | none => false

/-- The switch over `coreErr.InnerError` that writes `qErr.cause.cause` in
the descriptor branch: the timeout / cancellation / deadline-exceeded
annotation, in the source's case order; `errors.Is(nil, target)` is false. -/
def CoreColumnarError.innerAnnotation (e : CoreColumnarError) : ErrCause :=
  match e.InnerError with
  | some i =>
    if i.isTimeout then .timeout
    else if i.isCanceled then .canceled
    else if i.isDeadlineExceeded then .deadlineExceeded
    else .unset
  | none => .unset

/-- The descriptor loop of `translateGocbcoreError`: copies each
`gocbcore` descriptor into a `columnarErrorDesc` and captures (a pointer
to) the first copy whose `Retry` flag is false. -/
def descLoop : List ErrorDesc → Option columnarErrorDesc →
    List columnarErrorDesc × Option columnarErrorDesc
  | [], first => ([], first)
  | d :: rest, first =>
    let copy : columnarErrorDesc := { Code := d.Code, Message := d.Message }
    let first' :=
      match first with
      | some f => some f
      | none => if !d.Retry then some copy else none
    let r := descLoop rest first'
    (copy :: r.1, r.2)

/-- The function `translateGocbcoreError(err)`.  The result is `none` exactly when the Go
code would dereference a nil `coreErr.InnerError` (a run-time panic): both
the credential branch and the empty-descriptor branch call
`coreErr.InnerError.Error()` unconditionally. -/
def translateGocbcoreError (err : GoError) : Option ClassifiedError :=
  match err with
  | .other _ => some (.passthrough err)
  | .core coreErr =>
    if coreErr.HTTPResponseCode = 401 ∨ coreErr.innerIsAuth then
      match coreErr.InnerError with
      | none => none
      | some inner =>
        some (.columnar
          { statement := coreErr.Statement
            endpoint := coreErr.Endpoint
            httpStatusCode := coreErr.HTTPResponseCode
            message := inner.message
            errors := []
            cause := .invalidCredential })
    else
      match coreErr.Errors with
      | e0 :: _ =>
        let r := descLoop coreErr.Errors none
        let code : Nat := match r.2 with | none => e0.Code | some f => f.Code
        let msg : String := match r.2 with | none => e0.Message | some f => f.Message
        if code = 20000 then
          some (.columnar
            { statement := coreErr.Statement
              endpoint := coreErr.Endpoint
              httpStatusCode := coreErr.HTTPResponseCode
              message := ""
              errors := r.1
              cause := .invalidCredential })
        else if code = 21002 then
          some (.columnar
            { statement := coreErr.Statement
              endpoint := coreErr.Endpoint
              httpStatusCode := coreErr.HTTPResponseCode
              message := ""
              errors := r.1
              cause := .timeout })
        else
          some (.query
            { statement := coreErr.Statement
              endpoint := coreErr.Endpoint
              httpStatusCode := coreErr.HTTPResponseCode
              code := code
              message := msg
              errors := r.1
              causeAnnotation := coreErr.innerAnnotation })
      | [] =>
        match coreErr.InnerError with
        | none => none
        | some inner =>
          if inner.isTimeout then
            some (.columnar
              { statement := coreErr.Statement
                endpoint := coreErr.Endpoint
                httpStatusCode := coreErr.HTTPResponseCode
                message :=
                  if coreErr.WasNotDispatched then
                    "operation not sent to server, as timeout would be exceeded"
                  else inner.message
                errors := []
                cause := .timeout })
          else if inner.isCanceled then
            some (.columnar
              { statement := coreErr.Statement
                endpoint := coreErr.Endpoint
                httpStatusCode := coreErr.HTTPResponseCode
                message :=
                  if coreErr.WasNotDispatched then
                    "operation not sent to server, as context was cancelled"
                  else inner.message
                errors := []
                cause := .canceled })
          else if inner.isDeadlineExceeded then
            some (.columnar
              { statement := coreErr.Statement
                endpoint := coreErr.Endpoint
                httpStatusCode := coreErr.HTTPResponseCode
                message :=
                  if coreErr.WasNotDispatched then
                    "operation not sent to server, as context deadline would be exceeded"
                  else inner.message
                errors := []
                cause := .deadlineExceeded })
          else if inner.isAuthFailure then
            some (.columnar
              { statement := coreErr.Statement
                endpoint := coreErr.Endpoint
                httpStatusCode := coreErr.HTTPResponseCode
                message := inner.message
                errors := []
                cause := .invalidCredential })
          else
            some (.columnar
              { statement := coreErr.Statement
                endpoint := coreErr.Endpoint
                httpStatusCode := coreErr.HTTPResponseCode
                message := inner.message
                errors := []
                cause := .wrapped coreErr.ErrorString })

/-! ### Orchestration (`gocbcoreQueryClient.Query`) -/

/-- The observable outcome of `Query`: the options actually dispatched on
success (the `QueryResult` wrapping is external), the build error returned
before dispatch, or the classified dispatch error together with the
options that were dispatched when it arose. -/
inductive QueryOutcome where
  | ok (coreOpts : ColumnarQueryOptions)
  | buildErr (e : invalidArgumentError)
  | dispatchErr (sent : ColumnarQueryOptions) (e : Option ClassifiedError)

/-- The method `(c *gocbcoreQueryClient) Query(ctx, statement, opts)`.  The transport
collaborator `c.agent.Query` is the function argument `agentErr` (its error
result, `none` on success); `uuid` is the fresh `uuid.NewString()`. -/
def gocbcoreQueryClient.Query (c : gocbcoreQueryClient)
    (agentErr : ColumnarQueryOptions → Option GoError) (uuid : String)
    (ctx : Ctx) (statement : String) (opts : QueryOptions) : QueryOutcome :=
  match translateQueryOptions c ctx statement opts with
  | .error e => .buildErr e
  | .ok coreOpts =>
    let p1 :=
      match c.namespace_ with
      | some ns =>
        coreOpts.Payload.set "query_context"
          (.str ("default:`" ++ ns.Database ++ "`.`" ++ ns.Scope ++ "`"))
      | none => coreOpts.Payload
    let p2 := p1.set "client_context_id" (.str uuid)
    let coreOpts' : ColumnarQueryOptions := { coreOpts with Payload := p2 }
    match agentErr coreOpts' with
    | some e => .dispatchErr coreOpts' (translateGocbcoreError e)
    | none => .ok coreOpts'

/-! ### Metadata decoding (`gocbcoreRowReader.MetaData`) -/

structure QueryWarning where
  Code : Nat
  Message : String
deriving DecidableEq

structure QueryMetrics where
  ElapsedTime : Int
  ExecutionTime : Int
  ResultCount : Nat
  ResultSize : Nat
  ProcessedObjects : Nat
deriving DecidableEq

structure QueryMetadata where
  RequestID : String
  Metrics : QueryMetrics
  Warnings : List QueryWarning
deriving DecidableEq

/-- Modelled from the spec: the JSON envelope `jsonAnalyticsResponse` is
declared outside `src/`.  A field is `none` when it is missing from the
JSON object; unknown JSON fields are ignored and so not represented. -/
structure jsonAnalyticsResponse where
  requestID : Option String := none
  elapsedTime : Option Int := none
  executionTime : Option Int := none
  resultCount : Option Nat := none
  resultSize : Option Nat := none
  processedObjects : Option Nat := none
  warnings : Option (List QueryWarning) := none
deriving DecidableEq

/-- Modelled from the spec: `meta.fromData(jsonResp)` (outside `src/`) fills
the zero-initialized `QueryMetadata`; missing numeric fields default to
zero and a missing warning list to the empty sequence. -/
def QueryMetadata.fromData (resp : jsonAnalyticsResponse) : QueryMetadata :=
  { RequestID := resp.requestID.getD ""
    Metrics :=
      { ElapsedTime := resp.elapsedTime.getD 0
        ExecutionTime := resp.executionTime.getD 0
        ResultCount := resp.resultCount.getD 0
        ResultSize := resp.resultSize.getD 0
        ProcessedObjects := resp.processedObjects.getD 0 }
    Warnings := resp.warnings.getD [] }

/-- Modelled from the spec: the outcome of `json.Unmarshal(metaBytes, ...)`
on the metadata bytes — either a parse failure with the failure's message,
or the decoded envelope. -/
inductive MetaBytes where
  | malformed (parseErrMsg : String)
  | wellFormed (resp : jsonAnalyticsResponse)

/-- The error side of `MetaData()`: a transport failure routed through the
classifier, or the metadata-parse failure built by
`fmt.Errorf("failed to unmarshal metadata: %s", err)`. -/
inductive MetaDataError where
  | translated (e : Option ClassifiedError)
  | parse (msg : String)
deriving DecidableEq

/-- The method `(c *gocbcoreRowReader) MetaData()`, as a function of the underlying
stream's `MetaData()` result (transport error, or bytes abstracted by their
unmarshaling outcome). -/
def gocbcoreRowReader.MetaData (streamResult : Except GoError MetaBytes) :
    Except MetaDataError QueryMetadata :=
  match streamResult with
  | .error e => .error (.translated (translateGocbcoreError e))
  | .ok (.malformed m) => .error (.parse ("failed to unmarshal metadata: " ++ m))
  | .ok (.wellFormed resp) => .ok (QueryMetadata.fromData resp)

/-! ### Helper lemmas and spec-side definitions for the claims -/

/-- The Deadline Resolver (spec section 4.1), exactly as the code computes
the value of the payload's timeout field in lines 116-121. -/
def resolvedTimeout (c : gocbcoreQueryClient) (ctx : Ctx) : String :=
  match ctx.remaining with
  | some r => durationString (r + 5 * (nsSecond : Int))
  | none => durationString c.defaultQueryTimeout

/-- The spec's descriptor selection rule: the first descriptor whose
retry-eligibility flag is false, or the first descriptor in list order
when all are retriable. -/
def selectedDesc (d0 : ErrorDesc) (l : List ErrorDesc) : ErrorDesc :=
  (l.find? (fun d => !d.Retry)).getD d0

/-- The verbatim copy of a descriptor list into the repository's own
descriptor type. -/
def toColumnarDescs (l : List ErrorDesc) : List columnarErrorDesc :=
  l.map (fun d => { Code := d.Code, Message := d.Message })

theorem descLoop_fst (l : List ErrorDesc) (acc : Option columnarErrorDesc) :
    (descLoop l acc).1 = toColumnarDescs l := by
  induction l generalizing acc with
  | nil => rfl
  | cons d rest ih => simp [descLoop, toColumnarDescs, ih]

theorem descLoop_snd_some (l : List ErrorDesc) (f : columnarErrorDesc) :
    (descLoop l (some f)).2 = some f := by
  induction l with
  | nil => rfl
  | cons d rest ih => simp [descLoop, ih]

theorem descLoop_snd_none (l : List ErrorDesc) :
    (descLoop l none).2 =
      (l.find? (fun d => !d.Retry)).map
        (fun d => ({ Code := d.Code, Message := d.Message } : columnarErrorDesc)) := by
  induction l with
  | nil => rfl
  | cons d rest ih =>
    by_cases hR : d.Retry
    · simp [descLoop, hR, ih, List.find?]
    · simp [descLoop, hR, descLoop_snd_some, List.find?]

theorem scanConsistencyStep_get?_ne (sc : Option QueryScanConsistency)
    (p q : Payload) (k : String) (h : scanConsistencyStep sc p = .ok q)
    (hk : k ≠ "scan_consistency") : q.get? k = p.get? k := by
  cases sc with
  | none =>
    simp only [scanConsistencyStep] at h
    cases h
    rfl
  | some v =>
    simp only [scanConsistencyStep] at h
    by_cases h1 : v = QueryScanConsistencyNotBounded
    · rw [if_pos h1] at h
      cases h
      exact Payload.get?_set_ne p k _ _ (fun hh => hk hh.symm)
    · rw [if_neg h1] at h
      by_cases h2 : v = QueryScanConsistencyRequestPlus
      · rw [if_pos h2] at h
        cases h
        exact Payload.get?_set_ne p k _ _ (fun hh => hk hh.symm)
      · rw [if_neg h2] at h
        cases h

/-! ### Concrete inputs used by witnesses and counterexamples -/

/-- A client with the 10-minute default query timeout and no namespace. -/
def clientDefault : gocbcoreQueryClient := { defaultQueryTimeout := 600000000000, namespace_ := none }

/-- A context without a deadline. -/
def ctxNoDeadline : Ctx := { remaining := none }

/-- A context whose deadline is 2 seconds in the future. -/
def ctxTwoSeconds : Ctx := { remaining := some 2000000000 }

/-! ### C3 — deadline resolution -/

/-- Claim C3: on every successful build the payload's timeout field is the
resolved timeout rendered as a duration string, where the resolution is
(remaining until deadline) + 5 seconds when the context carries a deadline
and the configured default when it does not; the resolution itself never
fails (the only failure of the builder is scan-consistency validation). -/
theorem translateQueryOptions_resolvedTimeout
    (c : gocbcoreQueryClient) (ctx : Ctx) (statement : String)
    (opts : QueryOptions) (co : ColumnarQueryOptions)
    (h : translateQueryOptions c ctx statement opts = .ok co) :
    co.Payload.get? "timeout" = some (.str (resolvedTimeout c ctx))
    ∧ (∀ r, ctx.remaining = some r →
        resolvedTimeout c ctx = durationString (r + 5 * (nsSecond : Int)))
    ∧ (ctx.remaining = none →
        resolvedTimeout c ctx = durationString c.defaultQueryTimeout)
    ∧ (∀ (c' : gocbcoreQueryClient) (ctx' : Ctx) (s' : String) (o' : QueryOptions),
        o'.ScanConsistency = none →
        ∃ co', translateQueryOptions c' ctx' s' o' = .ok co') := by
  refine ⟨?_, ?_, ?_, ?_⟩
  · simp only [translateQueryOptions] at h
    split at h
    · cases h
    · cases h
      rw [Payload.get?_set_ne _ _ _ _ (by decide)]
      cases hr : ctx.remaining <;>
        simp [hr, Payload.get?_set_self, resolvedTimeout]
  · intro r hr
    simp [resolvedTimeout, hr]
  · intro hr
    simp [resolvedTimeout, hr]
  · intro c' ctx' s' o' hsc
    simp only [translateQueryOptions, scanConsistencyStep, hsc]
    exact ⟨_, rfl⟩

/-- The concrete build of witness c3: no options, deadline 2 s away. -/
def coTwoSeconds : ColumnarQueryOptions :=
  { Payload := [("timeout", GoValue.str "7s"), ("statement", GoValue.str "SELECT 1")]
    Priority := none }

theorem translateQueryOptions_resolvedTimeout_witness :
    coTwoSeconds.Payload.get? "timeout" =
      some (.str (resolvedTimeout clientDefault ctxTwoSeconds))
    ∧ resolvedTimeout clientDefault ctxTwoSeconds = "7s" :=
  ⟨(translateQueryOptions_resolvedTimeout clientDefault ctxTwoSeconds "SELECT 1"
      {} coTwoSeconds rfl).1, rfl⟩

/-! ### C9 — statement and timeout fields of the built payload -/

/-- The build of the empty statement with no options and no deadline. -/
def coEmptyStatement : ColumnarQueryOptions :=
  { Payload := [("timeout", GoValue.str "10m0s"), ("statement", GoValue.str "")]
    Priority := none }

/-- Claim C9 counterexample: a successful build whose statement field holds the
empty string — the code never validates the statement argument, so the
claim that the payload always contains a NON-EMPTY statement field fails
when the caller passes the empty statement. -/
theorem translateQueryOptions_empty_statement_cex :
    translateQueryOptions clientDefault ctxNoDeadline "" {} = .ok coEmptyStatement
    ∧ coEmptyStatement.Payload.get? "statement" = some (.str "") :=
  ⟨rfl, rfl⟩

/-- Claim C9 (amended): every successful build contains a statement field equal
to the statement argument (hence non-empty whenever the argument is) and a
timeout field holding a non-empty duration string. -/
theorem translateQueryOptions_fields_present
    (c : gocbcoreQueryClient) (ctx : Ctx) (statement : String)
    (opts : QueryOptions) (co : ColumnarQueryOptions)
    (h : translateQueryOptions c ctx statement opts = .ok co) :
    co.Payload.get? "statement" = some (.str statement)
    ∧ co.Payload.get? "timeout" = some (.str (resolvedTimeout c ctx))
    ∧ resolvedTimeout c ctx ≠ "" := by
  simp only [translateQueryOptions] at h
  split at h
  · cases h
  · cases h
    refine ⟨Payload.get?_set_self _ _ _, ?_, ?_⟩
    · rw [Payload.get?_set_ne _ _ _ _ (by decide)]
      cases hr : ctx.remaining <;>
        simp [hr, Payload.get?_set_self, resolvedTimeout]
    · cases hr : ctx.remaining <;>
        simp only [resolvedTimeout, hr] <;>
        exact durationString_ne_empty _

/-- The build of "SELECT 1" with no options and no deadline. -/
def coSelectOne : ColumnarQueryOptions :=
  { Payload := [("timeout", GoValue.str "10m0s"), ("statement", GoValue.str "SELECT 1")]
    Priority := none }

theorem translateQueryOptions_fields_present_witness :
    coSelectOne.Payload.get? "statement" = some (.str "SELECT 1")
    ∧ coSelectOne.Payload.get? "timeout" =
        some (.str (resolvedTimeout clientDefault ctxNoDeadline))
    ∧ resolvedTimeout clientDefault ctxNoDeadline ≠ "" :=
  translateQueryOptions_fields_present clientDefault ctxNoDeadline "SELECT 1"
    {} coSelectOne rfl

/-! ### C1 — raw passthrough entries versus later built-in fields -/

/-- Options whose raw passthrough tries to override the statement field. -/
def optsRawStatement : QueryOptions :=
  { Raw := some [("statement", GoValue.str "raw-stmt")] }

/-- The actual build for optsRawStatement: the statement argument wins. -/
def coRawStatement : ColumnarQueryOptions :=
  { Payload := [("statement", GoValue.str "SELECT 1"), ("timeout", GoValue.str "10m0s")]
    Priority := none }

/-- Claim C1 counterexample: a raw passthrough entry with key statement does
NOT override the statement derived from the function argument — the source
applies raw entries (lines 92-96) before it writes the built-in timeout
and statement fields (lines 116-123), so the built-ins win. -/
theorem translateQueryOptions_raw_statement_cex :
    translateQueryOptions clientDefault ctxNoDeadline "SELECT 1" optsRawStatement
      = .ok coRawStatement
    ∧ coRawStatement.Payload.get? "statement" = some (.str "SELECT 1")
    ∧ coRawStatement.Payload.get? "statement" ≠ some (.str "raw-stmt") := by
  refine ⟨rfl, rfl, ?_⟩
  rw [show coRawStatement.Payload.get? "statement"
        = some (GoValue.str "SELECT 1") from rfl]
  simp

/-- Claim C1 (amended): each raw passthrough entry is copied verbatim into the
payload and may overwrite keys set by the positional/named-parameter steps,
but the fields written after the raw step (scan_consistency, readonly,
timeout, statement) overwrite raw entries under those keys; in particular
the statement field always comes from the function argument. -/
theorem translateQueryOptions_raw_passthrough
    (c : gocbcoreQueryClient) (ctx : Ctx) (statement : String)
    (opts : QueryOptions) (co : ColumnarQueryOptions)
    (h : translateQueryOptions c ctx statement opts = .ok co) :
    co.Payload.get? "statement" = some (.str statement)
    ∧ (∀ raw k v, opts.Raw = some raw → (k, v) ∈ raw →
        (raw.map Prod.fst).Nodup →
        k ≠ "scan_consistency" → k ≠ "readonly" → k ≠ "timeout" → k ≠ "statement" →
        co.Payload.get? k = some v) := by
  simp only [translateQueryOptions] at h
  split at h
  · cases h
  · rename_i e4 heq
    cases h
    refine ⟨Payload.get?_set_self _ _ _, ?_⟩
    intro raw k v hraw hmem hnodup hk1 hk2 hk3 hk4
    rw [Payload.get?_set_ne _ _ _ _ (fun hh => hk4 hh.symm)]
    rw [show (match ctx.remaining with
          | some r =>
            Payload.set
              (match opts.ReadOnly with
               | some b => e4.set "readonly" (.bool b)
               | none => e4) "timeout" (.str (durationString (r + 5 * (nsSecond : Int))))
          | none =>
            Payload.set
              (match opts.ReadOnly with
               | some b => e4.set "readonly" (.bool b)
               | none => e4) "timeout" (.str (durationString c.defaultQueryTimeout)))
        = Payload.set
            (match opts.ReadOnly with
             | some b => e4.set "readonly" (.bool b)
             | none => e4) "timeout"
            (.str (resolvedTimeout c ctx)) from by
      cases hr : ctx.remaining <;> simp [hr, resolvedTimeout]]
    rw [Payload.get?_set_ne _ _ _ _ (fun hh => hk3 hh.symm)]
    have hro : (match opts.ReadOnly with
        | some b => e4.set "readonly" (.bool b)
        | none => e4).get? k = e4.get? k := by
      cases hb : opts.ReadOnly with
      | none => rfl
      | some b => exact Payload.get?_set_ne _ _ _ _ (fun hh => hk2 hh.symm)
    rw [hro, scanConsistencyStep_get?_ne _ _ _ _ heq hk1, hraw]
    exact Payload.get?_setAll_mem raw _ k v hmem hnodup

/-- Options with a raw statement override and a custom raw field. -/
def optsRawTwo : QueryOptions :=
  { Raw := some [("statement", GoValue.str "raw-stmt"), ("custom", GoValue.str "v")] }

/-- The actual build for optsRawTwo. -/
def coRawTwo : ColumnarQueryOptions :=
  { Payload := [("statement", GoValue.str "SELECT 1"), ("custom", GoValue.str "v"),
                ("timeout", GoValue.str "10m0s")]
    Priority := none }

theorem translateQueryOptions_raw_passthrough_witness :
    coRawTwo.Payload.get? "statement" = some (.str "SELECT 1")
    ∧ coRawTwo.Payload.get? "custom" = some (.str "v") := by
  have h := translateQueryOptions_raw_passthrough clientDefault ctxNoDeadline
    "SELECT 1" optsRawTwo coRawTwo rfl
  exact ⟨h.1, h.2 _ "custom" (.str "v") rfl
    (List.mem_cons_of_mem _ (List.mem_cons_self _ _))
    (by simp) (by decide) (by decide) (by decide) (by decide)⟩

/-! ### C7 — fields injected by the orchestrator after the build -/

/-- Claim C7: for every dispatched request (successful or failing at the
transport), the payload carries the fresh client_context_id and, when a
namespace is configured, the query_context in the format
default:(backquoted db).(backquoted scope) — both injected after
translateQueryOptions, for arbitrary options, so no raw passthrough entry
can override them. -/
theorem Query_injected_fields
    (c : gocbcoreQueryClient) (agentErr : ColumnarQueryOptions → Option GoError)
    (uuid : String) (ctx : Ctx) (statement : String) (opts : QueryOptions)
    (co : ColumnarQueryOptions)
    (h : c.Query agentErr uuid ctx statement opts = .ok co
         ∨ ∃ e, c.Query agentErr uuid ctx statement opts = .dispatchErr co e) :
    co.Payload.get? "client_context_id" = some (.str uuid)
    ∧ (∀ ns, c.namespace_ = some ns →
        co.Payload.get? "query_context" =
          some (.str ("default:`" ++ ns.Database ++ "`.`" ++ ns.Scope ++ "`"))) := by
  rcases h with h | ⟨e, h⟩ <;>
    (simp only [gocbcoreQueryClient.Query] at h
     split at h
     · cases h
     · split at h
       all_goals
         first
           | (cases h
              refine ⟨Payload.get?_set_self _ _ _, ?_⟩
              intro ns hns
              rw [Payload.get?_set_ne _ _ _ _ (by decide)]
              simp only [hns]
              exact Payload.get?_set_self _ _ _)
           | cases h)

/-- A client configured with the namespace db/sc. -/
def clientNamespaced : gocbcoreQueryClient :=
  { defaultQueryTimeout := 600000000000
    namespace_ := some { Database := "db", Scope := "sc" } }

/-- The dispatched options for a namespaced plain query with uuid-1. -/
def coNamespaced : ColumnarQueryOptions :=
  { Payload := [("timeout", GoValue.str "10m0s"), ("statement", GoValue.str "SELECT 1"),
                ("query_context", GoValue.str "default:`db`.`sc`"),
                ("client_context_id", GoValue.str "uuid-1")]
    Priority := none }

theorem Query_injected_fields_witness :
    coNamespaced.Payload.get? "client_context_id" = some (.str "uuid-1")
    ∧ coNamespaced.Payload.get? "query_context" =
        some (.str "default:`db`.`sc`") := by
  have h := Query_injected_fields clientNamespaced (fun _ => none) "uuid-1"
    ctxNoDeadline "SELECT 1" {} coNamespaced (Or.inl rfl)
  exact ⟨h.1, h.2 { Database := "db", Scope := "sc" } rfl⟩

/-! ### C8 — scan-consistency encoding and validation -/

/-- Claim C8: NotBounded encodes to the literal not_bounded and RequestPlus to
request_plus under the scan_consistency key; any other value makes the
build fail with an InvalidArgument error naming the field ScanConsistency,
and Query returns that failure before the transport is consulted (the
outcome is buildErr for every transport behaviour agentErr). -/
theorem scanConsistency_encoding :
    (∀ (c : gocbcoreQueryClient) (ctx : Ctx) (stmt : String) (opts : QueryOptions)
        (co : ColumnarQueryOptions),
      opts.ScanConsistency = some QueryScanConsistencyNotBounded →
      translateQueryOptions c ctx stmt opts = .ok co →
      co.Payload.get? "scan_consistency" = some (.str "not_bounded"))
    ∧ (∀ (c : gocbcoreQueryClient) (ctx : Ctx) (stmt : String) (opts : QueryOptions)
        (co : ColumnarQueryOptions),
      opts.ScanConsistency = some QueryScanConsistencyRequestPlus →
      translateQueryOptions c ctx stmt opts = .ok co →
      co.Payload.get? "scan_consistency" = some (.str "request_plus"))
    ∧ (∀ (c : gocbcoreQueryClient) (agentErr : ColumnarQueryOptions → Option GoError)
        (uuid : String) (ctx : Ctx) (stmt : String) (opts : QueryOptions)
        (sc : QueryScanConsistency),
      opts.ScanConsistency = some sc →
      sc ≠ QueryScanConsistencyNotBounded → sc ≠ QueryScanConsistencyRequestPlus →
      c.Query agentErr uuid ctx stmt opts =
        .buildErr { ArgumentName := "ScanConsistency", Reason := "unknown value" }) := by
  refine ⟨?_, ?_, ?_⟩
  · intro c ctx stmt opts co hsc h
    simp only [translateQueryOptions] at h
    split at h
    · cases h
    · rename_i e4 heq
      cases h
      rw [hsc] at heq
      simp [scanConsistencyStep] at heq
      rw [Payload.get?_set_ne _ _ _ _ (by decide)]
      cases hr : ctx.remaining
      all_goals
        simp only [hr]
        rw [Payload.get?_set_ne _ _ _ _ (by decide)]
        cases hro : opts.ReadOnly
        all_goals
          simp only [hro]
          first
            | (subst heq
               exact Payload.get?_set_self _ _ _)
            | (rw [Payload.get?_set_ne _ _ _ _ (by decide)]
               subst heq
               exact Payload.get?_set_self _ _ _)
  · intro c ctx stmt opts co hsc h
    simp only [translateQueryOptions] at h
    split at h
    · cases h
    · rename_i e4 heq
      cases h
      rw [hsc] at heq
      simp [scanConsistencyStep, QueryScanConsistencyRequestPlus,
        QueryScanConsistencyNotBounded] at heq
      rw [Payload.get?_set_ne _ _ _ _ (by decide)]
      cases hr : ctx.remaining
      all_goals
        simp only [hr]
        rw [Payload.get?_set_ne _ _ _ _ (by decide)]
        cases hro : opts.ReadOnly
        all_goals
          simp only [hro]
          first
            | (subst heq
               exact Payload.get?_set_self _ _ _)
            | (rw [Payload.get?_set_ne _ _ _ _ (by decide)]
               subst heq
               exact Payload.get?_set_self _ _ _)
  · intro c agentErr uuid ctx stmt opts sc hsc h1 h2
    simp [gocbcoreQueryClient.Query, translateQueryOptions, scanConsistencyStep,
      hsc, h1, h2]

/-- Options selecting NotBounded scan consistency. -/
def optsNotBounded : QueryOptions :=
  { ScanConsistency := some QueryScanConsistencyNotBounded }

/-- The build of a NotBounded query with no deadline. -/
def coNotBounded : ColumnarQueryOptions :=
  { Payload := [("scan_consistency", GoValue.str "not_bounded"),
                ("timeout", GoValue.str "10m0s"), ("statement", GoValue.str "SELECT 1")]
    Priority := none }

/-- Options carrying an unrecognized scan-consistency value. -/
def optsBadScan : QueryOptions := { ScanConsistency := some 3 }

theorem scanConsistency_encoding_witness :
    coNotBounded.Payload.get? "scan_consistency" = some (.str "not_bounded")
    ∧ gocbcoreQueryClient.Query clientDefault (fun _ => none) "uuid-1"
        ctxNoDeadline "SELECT 1" optsBadScan =
      .buildErr { ArgumentName := "ScanConsistency", Reason := "unknown value" } :=
  ⟨scanConsistency_encoding.1 clientDefault ctxNoDeadline "SELECT 1"
      optsNotBounded coNotBounded rfl rfl,
    scanConsistency_encoding.2.2 clientDefault (fun _ => none) "uuid-1"
      ctxNoDeadline "SELECT 1" optsBadScan 3 rfl (by decide) (by decide)⟩


/-! ### C4 — the 401 / authentication rule wins first -/

/-- Claim C4: whenever the transport error's status code is 401 or its inner
cause indicates authentication failure, the classifier returns
InvalidCredential carrying the inner error's message — with no hypothesis
on the descriptor list, so this holds even when descriptors are present
(the decision tree is evaluated top to bottom, first match wins). -/
theorem translateGocbcoreError_credential
    (e : CoreColumnarError) (inner : InnerErr)
    (hInner : e.InnerError = some inner)
    (h : e.HTTPResponseCode = 401 ∨ inner.isAuthFailure = true) :
    translateGocbcoreError (.core e) =
      some (.columnar
        { statement := e.Statement
          endpoint := e.Endpoint
          httpStatusCode := e.HTTPResponseCode
          message := inner.message
          errors := []
          cause := .invalidCredential }) := by
  have hcond : e.HTTPResponseCode = 401 ∨ e.innerIsAuth = true := by
    rcases h with h | h
    · exact Or.inl h
    · exact Or.inr (by simp [CoreColumnarError.innerIsAuth, hInner, h])
  simp only [translateGocbcoreError, hInner]
  rw [if_pos hcond]

/-- An inner cause that matches none of the errors.Is probes. -/
def innerPlain : InnerErr :=
  { message := "inner msg"
    isTimeout := false
    isCanceled := false
    isDeadlineExceeded := false
    isAuthFailure := false }

/-- A 401 transport error that also carries a descriptor. -/
def coreAuth401 : CoreColumnarError :=
  { InnerError := some innerPlain
    Statement := "st"
    Endpoint := "ep"
    HTTPResponseCode := 401
    WasNotDispatched := false
    Errors := [{ Code := 5000, Message := "m5", Retry := true }]
    ErrorString := "outer" }

theorem translateGocbcoreError_credential_witness :
    translateGocbcoreError (.core coreAuth401) =
      some (.columnar
        { statement := "st"
          endpoint := "ep"
          httpStatusCode := 401
          message := "inner msg"
          errors := []
          cause := .invalidCredential }) :=
  translateGocbcoreError_credential coreAuth401 innerPlain rfl (Or.inl rfl)

/-! ### C2 — descriptor selection and classification -/

/-- Claim C2: with a non-empty descriptor list and the 401/authentication rule
not matching, the classifier selects the first non-retriable descriptor
(first in list order when all are retriable); code 20000 yields
InvalidCredential, 21002 yields Timeout, and otherwise a QueryError whose
identity code and message are the selected descriptor's, carrying the full
copied descriptor list, with the cause annotated by the inner cause's
timeout / cancellation / deadline-exceeded signal. -/
theorem translateGocbcoreError_descriptors
    (e : CoreColumnarError) (d0 : ErrorDesc) (rest : List ErrorDesc)
    (hE : e.Errors = d0 :: rest)
    (h401 : e.HTTPResponseCode ≠ 401) (hAuth : e.innerIsAuth = false) :
    translateGocbcoreError (.core e) =
      some
        (if (selectedDesc d0 e.Errors).Code = 20000 then
          .columnar
            { statement := e.Statement
              endpoint := e.Endpoint
              httpStatusCode := e.HTTPResponseCode
              message := ""
              errors := toColumnarDescs e.Errors
              cause := .invalidCredential }
        else if (selectedDesc d0 e.Errors).Code = 21002 then
          .columnar
            { statement := e.Statement
              endpoint := e.Endpoint
              httpStatusCode := e.HTTPResponseCode
              message := ""
              errors := toColumnarDescs e.Errors
              cause := .timeout }
        else
          .query
            { statement := e.Statement
              endpoint := e.Endpoint
              httpStatusCode := e.HTTPResponseCode
              code := (selectedDesc d0 e.Errors).Code
              message := (selectedDesc d0 e.Errors).Message
              errors := toColumnarDescs e.Errors
              causeAnnotation := e.innerAnnotation }) := by
  have hcond : ¬(e.HTTPResponseCode = 401 ∨ e.innerIsAuth = true) := by
    rintro (hh | hh)
    · exact h401 hh
    · rw [hAuth] at hh
      cases hh
  rw [hE, selectedDesc]
  cases hf : (d0 :: rest).find? (fun d => !d.Retry) with
  | none =>
    simp only [translateGocbcoreError, hE, if_neg hcond, descLoop_snd_none,
      descLoop_fst, hf, Option.map_none', Option.getD_none]
    split_ifs <;> rfl
  | some dd =>
    simp only [translateGocbcoreError, hE, if_neg hcond, descLoop_snd_none,
      descLoop_fst, hf, Option.map_some', Option.getD_some]
    split_ifs <;> rfl

/-- A transport error with a retriable and a non-retriable descriptor. -/
def coreDescs : CoreColumnarError :=
  { InnerError := some innerPlain
    Statement := "st"
    Endpoint := "ep"
    HTTPResponseCode := 200
    WasNotDispatched := false
    Errors := [{ Code := 5000, Message := "m5", Retry := true },
               { Code := 6000, Message := "m6", Retry := false }]
    ErrorString := "outer" }

theorem translateGocbcoreError_descriptors_witness :
    translateGocbcoreError (.core coreDescs) =
      some (.query
        { statement := "st"
          endpoint := "ep"
          httpStatusCode := 200
          code := 6000
          message := "m6"
          errors := [{ Code := 5000, Message := "m5" },
                     { Code := 6000, Message := "m6" }]
          causeAnnotation := .unset }) := by
  have h := translateGocbcoreError_descriptors coreDescs
    { Code := 5000, Message := "m5", Retry := true }
    [{ Code := 6000, Message := "m6", Retry := false }] rfl (by decide) rfl
  exact h

/-! ### C5 — classification with an empty descriptor list -/

/-- Claim C5: with no descriptors and the 401/authentication rule not matching,
the classifier builds a base error from the inner cause's message and tags
it by the inner cause in the source's case order — transport timeout →
Timeout, caller cancellation → Canceled, caller deadline-exceeded →
DeadlineExceeded, anything else → Unknown wrapping the original error's
message — overriding the message with the operation-was-never-sent text
when the was-not-dispatched flag is set in the first three cases.  (The
claim's authentication-failure case is subsumed by the earlier
401/authentication rule, which fires first on the same predicate.) -/
theorem translateGocbcoreError_no_descriptors
    (e : CoreColumnarError) (inner : InnerErr)
    (hInner : e.InnerError = some inner) (hE : e.Errors = [])
    (h401 : e.HTTPResponseCode ≠ 401) (hAuth : inner.isAuthFailure = false) :
    (inner.isTimeout = true →
      translateGocbcoreError (.core e) =
        some (.columnar
          { statement := e.Statement
            endpoint := e.Endpoint
            httpStatusCode := e.HTTPResponseCode
            message :=
              if e.WasNotDispatched then
                "operation not sent to server, as timeout would be exceeded"
              else inner.message
            errors := []
            cause := .timeout }))
    ∧ (inner.isTimeout = false → inner.isCanceled = true →
      translateGocbcoreError (.core e) =
        some (.columnar
          { statement := e.Statement
            endpoint := e.Endpoint
            httpStatusCode := e.HTTPResponseCode
            message :=
              if e.WasNotDispatched then
                "operation not sent to server, as context was cancelled"
              else inner.message
            errors := []
            cause := .canceled }))
    ∧ (inner.isTimeout = false → inner.isCanceled = false →
        inner.isDeadlineExceeded = true →
      translateGocbcoreError (.core e) =
        some (.columnar
          { statement := e.Statement
            endpoint := e.Endpoint
            httpStatusCode := e.HTTPResponseCode
            message :=
              if e.WasNotDispatched then
                "operation not sent to server, as context deadline would be exceeded"
              else inner.message
            errors := []
            cause := .deadlineExceeded }))
    ∧ (inner.isTimeout = false → inner.isCanceled = false →
        inner.isDeadlineExceeded = false →
      translateGocbcoreError (.core e) =
        some (.columnar
          { statement := e.Statement
            endpoint := e.Endpoint
            httpStatusCode := e.HTTPResponseCode
            message := inner.message
            errors := []
            cause := .wrapped e.ErrorString })) := by
  have hcond : ¬(e.HTTPResponseCode = 401 ∨ e.innerIsAuth = true) := by
    rintro (hh | hh)
    · exact h401 hh
    · have hfalse : e.innerIsAuth = false := by
        simp [CoreColumnarError.innerIsAuth, hInner, hAuth]
      rw [hfalse] at hh
      cases hh
  refine ⟨?_, ?_, ?_, ?_⟩
  · intro hT
    simp [translateGocbcoreError, hE, hInner, hcond, hT]
  · intro hT hC
    simp [translateGocbcoreError, hE, hInner, hcond, hT, hC]
  · intro hT hC hD
    simp [translateGocbcoreError, hE, hInner, hcond, hT, hC, hD]
  · intro hT hC hD
    simp [translateGocbcoreError, hE, hInner, hcond, hT, hC, hD, hAuth]

/-- A caller-cancelled inner cause. -/
def innerCanceled : InnerErr :=
  { message := "ctx cancel"
    isTimeout := false
    isCanceled := true
    isDeadlineExceeded := false
    isAuthFailure := false }

/-- A caller-cancelled transport error that was never dispatched. -/
def coreCancelNotDispatched : CoreColumnarError :=
  { InnerError := some innerCanceled
    Statement := "st"
    Endpoint := "ep"
    HTTPResponseCode := 200
    WasNotDispatched := true
    Errors := []
    ErrorString := "outer" }

theorem translateGocbcoreError_no_descriptors_witness :
    translateGocbcoreError (.core coreCancelNotDispatched) =
      some (.columnar
        { statement := "st"
          endpoint := "ep"
          httpStatusCode := 200
          message := "operation not sent to server, as context was cancelled"
          errors := []
          cause := .canceled }) := by
  have h := (translateGocbcoreError_no_descriptors coreCancelNotDispatched
    innerCanceled rfl rfl (by decide) rfl).2.1 rfl rfl
  exact h

/-! ### C10 — totality of the classifier under a non-nil inner cause -/

/-- A 401 transport error whose inner cause is nil. -/
def coreNilInner : CoreColumnarError :=
  { InnerError := none
    Statement := ""
    Endpoint := ""
    HTTPResponseCode := 401
    WasNotDispatched := false
    Errors := []
    ErrorString := "" }

/-- Claim C10: the classifier is total under the precondition that a recognized
transport error carries a non-nil inner cause — it then returns exactly one
(non-nil) error, and returns errors without transport structure unchanged;
without the precondition it is not total: a 401 transport error with a nil
inner cause makes it dereference the nil inner error. -/
theorem translateGocbcoreError_totality :
    (∀ err : GoError,
      (∀ ce, err = .core ce → ce.InnerError ≠ none) →
      (translateGocbcoreError err).isSome = true)
    ∧ (∀ msg, translateGocbcoreError (.other msg) =
        some (.passthrough (.other msg)))
    ∧ (coreNilInner.InnerError = none
        ∧ translateGocbcoreError (.core coreNilInner) = none) := by
  refine ⟨?_, fun msg => rfl, rfl, rfl⟩
  intro err hpre
  cases err with
  | other msg => rfl
  | core ce =>
    have hne := hpre ce rfl
    cases hi : ce.InnerError with
    | none => exact absurd hi hne
    | some inner =>
      simp only [translateGocbcoreError, hi]
      repeat' split
      all_goals rfl

theorem translateGocbcoreError_totality_witness :
    (translateGocbcoreError (.other "boom")).isSome = true :=
  translateGocbcoreError_totality.1 (.other "boom")
    (fun _ h => GoError.noConfusion h)

/-! ### C6 — metadata parse failure and numeric defaults -/

/-- Claim C6: when the metadata bytes fail to unmarshal, MetaData fails with
the metadata-parse error wrapping the underlying parse failure's message;
when parsing succeeds, missing numeric fields default to zero (and a
missing warning list to the empty sequence) in the returned QueryMetadata. -/
theorem MetaData_parse_behaviour :
    (∀ m, gocbcoreRowReader.MetaData (.ok (.malformed m)) =
        .error (.parse ("failed to unmarshal metadata: " ++ m)))
    ∧ (∀ resp : jsonAnalyticsResponse,
        resp.elapsedTime = none → resp.executionTime = none →
        resp.resultCount = none → resp.resultSize = none →
        resp.processedObjects = none →
        gocbcoreRowReader.MetaData (.ok (.wellFormed resp)) =
          .ok { RequestID := resp.requestID.getD ""
                Metrics := { ElapsedTime := 0, ExecutionTime := 0,
                             ResultCount := 0, ResultSize := 0,
                             ProcessedObjects := 0 }
                Warnings := resp.warnings.getD [] }) := by
  refine ⟨fun m => rfl, ?_⟩
  intro resp h1 h2 h3 h4 h5
  simp [gocbcoreRowReader.MetaData, QueryMetadata.fromData, h1, h2, h3, h4, h5]

theorem MetaData_parse_behaviour_witness :
    gocbcoreRowReader.MetaData (.ok (.malformed "unexpected end of JSON input")) =
      .error (.parse "failed to unmarshal metadata: unexpected end of JSON input")
    ∧ gocbcoreRowReader.MetaData (.ok (.wellFormed {})) =
      .ok { RequestID := ""
            Metrics := { ElapsedTime := 0, ExecutionTime := 0, ResultCount := 0,
                         ResultSize := 0, ProcessedObjects := 0 }
            Warnings := [] } :=
  ⟨MetaData_parse_behaviour.1 "unexpected end of JSON input",
   MetaData_parse_behaviour.2 {} rfl rfl rfl rfl rfl⟩
